import Mathlib

/-!
Verification development for the ROBINS media scraper.

The definitions below are a shallow embedding of the core logic of
`src/scrapers.py` (class `MediaScraper`) and of the format-filter block of
`src/app.py` (`GET /scrape`).  Python exceptions are modelled with
`Except String`, Python `None` with `Option.none`, and the opaque external
collaborators (the yt-dlp extraction engine and the HTTP fetch + HTML parse
used by the TikTok fallback) as function-valued fields of an environment
record, so that every theorem quantifies over all of their behaviours.
-/

/-! ### String helpers (Python semantics) -/

/-- Python `str.lower()` restricted to ASCII, which is the alphabet of all
domain tests performed by the scraper. -/
def pyLower (s : String) : String := String.mk (s.data.map Char.toLower)

/-- Boolean test that the first character list is an initial segment of the
second. -/
def listStartsWith : List Char → List Char → Bool
  | [], _ => true
  | _ :: _, [] => false
  | a :: as, b :: bs => a == b && listStartsWith as bs

/-- Boolean contiguous-substring test on character lists; this is Python's
`sub in s` on strings. -/
def listHasSub (sub : List Char) : List Char → Bool
  | [] => listStartsWith sub []
  | b :: bs => listStartsWith sub (b :: bs) || listHasSub sub bs

/-- Python `sub in s` for strings. -/
def hasSub (sub s : String) : Bool := listHasSub sub.data s.data

/-- Boolean test that `p` is an initial segment of `s`. -/
def strStartsWith (p s : String) : Bool := listStartsWith p.data s.data

/-! ### CPython `urllib.parse.urlsplit`, the part that computes `netloc`

`MediaScraper.identify_platform` calls `urlparse(url).netloc`.  The model
follows CPython's `urlsplit`: strip leading C0-control/space characters,
remove the unsafe bytes tab/CR/LF, strip a leading `scheme:` (first `:` at a
positive index, first character an ASCII letter, all characters before the
`:` scheme characters), then, when the remainder starts with `//`, take the
characters up to the first `/`, `?` or `#` as the netloc.  A netloc that
contains `[` without `]` (or `]` without `[`) makes `urlsplit` raise
`ValueError("Invalid IPv6 URL")`; this is the one raising path and it is
modelled with `Except.error`. -/

def isC0OrSpace (c : Char) : Bool := c.toNat ≤ 32

def isUnsafeUrlByte (c : Char) : Bool := c == '\t' || c == '\r' || c == '\n'

def schemeChar (c : Char) : Bool := c.isAlpha || c.isDigit || c == '+' || c == '-' || c == '.'

/-- Index of the first occurrence of a character, Python `str.find`. -/
def findCharIdx (c : Char) : List Char → Option Nat
  | [] => none
  | x :: xs => if x == c then some 0 else (findCharIdx c xs).map (· + 1)

def headIsAsciiAlpha : List Char → Bool
  | [] => false
  | c :: _ => c.isAlpha

/-- Strip a leading `scheme:` as CPython's `urlsplit` does. -/
def dropScheme (cs : List Char) : List Char :=
  match findCharIdx ':' cs with
  | none => cs
  | some i =>
    if i == 0 then cs
    else if headIsAsciiAlpha cs && (cs.take i).all schemeChar then cs.drop (i + 1)
    else cs

def netlocDelim (c : Char) : Bool := c == '/' || c == '?' || c == '#'

/-- The WHATWG stripping `urlsplit` performs before parsing. -/
def preprocessed (url : String) : List Char :=
  (url.data.dropWhile isC0OrSpace).filter (fun c => ! isUnsafeUrlByte c)

/-- The netloc characters: everything up to the first `/`, `?` or `#`. -/
def netlocSlice (rest : List Char) : List Char :=
  rest.takeWhile (fun c => ! netlocDelim c)

/-- The unbalanced-bracket condition `urlsplit` raises `ValueError` on. -/
def bracketsUnbalanced (nl : List Char) : Bool :=
  (nl.contains '[' && ! nl.contains ']') || (nl.contains ']' && ! nl.contains '[')

/-- The `netloc` attribute of `urlparse(url)`, or the `ValueError` message
`urlsplit` raises on an unbalanced bracket in the netloc. -/
def urlsplitNetloc (url : String) : Except String String :=
  match dropScheme (preprocessed url) with
  | '/' :: '/' :: rest =>
    if bracketsUnbalanced (netlocSlice rest) then
      Except.error "Invalid IPv6 URL"
    else
      Except.ok (String.mk (netlocSlice rest))
  | _ => Except.ok ""

/-! ### `MediaScraper.identify_platform` (src/scrapers.py lines 29-42) -/

/-- The body of `identify_platform` once `domain = urlparse(url).netloc.lower()`
has been computed: the ordered if/elif chain of substring tests (the Python
local `domain` is inlined as `pyLower nl`). -/
def identifyFromNetloc (nl : String) : String :=
  if hasSub "youtube.com" (pyLower nl) || hasSub "youtu.be" (pyLower nl) then "youtube"
  else if hasSub "tiktok.com" (pyLower nl) then "tiktok"
  else if hasSub "instagram.com" (pyLower nl) then "instagram"
  else if hasSub "twitter.com" (pyLower nl) || hasSub "x.com" (pyLower nl) then "twitter"
  else "unknown"

/-- `MediaScraper.identify_platform`.  The `Except.error` case is the
`ValueError` that `urlparse` raises and that `identify_platform` does not
catch. -/
def identify_platform (url : String) : Except String String :=
  match urlsplitNetloc url with
  | Except.error e => Except.error e
  | Except.ok nl => Except.ok (identifyFromNetloc nl)

/-- The spec's fixed ordered table of case-insensitive containment tests
(spec section 4.1), written from the spec's words, to be compared with the
code's `identify_platform`. -/
def specPlatformTag (domain : String) : String :=
  if hasSub "youtube.com" domain || hasSub "youtu.be" domain then "youtube"
  else if hasSub "tiktok.com" domain then "tiktok"
  else if hasSub "instagram.com" domain then "instagram"
  else if hasSub "twitter.com" domain || hasSub "x.com" domain then "twitter"
  else "unknown"

deriving instance DecidableEq for Except

/-! ### Data model

A normalized format record.  Every `format_info` dict the scraper builds
carries an `ext` and a `quality` key whose values may be Python `None`
(modelled `Option.none`); the other optional attributes are copied the same
way.  `url` is always the truthy string the guard `if fmt.get('url')` let
through (or the `og:video` content in the manual fallback), so it is a plain
string here.  Numeric attributes are inert for every claim and are modelled
as `Option Int`.  A per-platform projection that does not copy an attribute
at all leaves the field `none`. -/

structure FormatRecord where
  format_id : Option String := none
  ext : Option String := none
  quality : Option String := none
  filesize : Option Int := none
  url : String := ""
  vcodec : Option String := none
  acodec : Option String := none
  width : Option Int := none
  height : Option Int := none
  fps : Option Int := none
  tbr : Option Int := none
deriving DecidableEq

/-- One raw per-format attribute mapping from the extraction engine.
`format_note` distinguishes a missing key (`none`) from a key whose value is
Python `None` (`some none`) because the code reads it with
`fmt.get('format_note', 'Unknown')`, whose default fires only when the key is
missing.  The other attributes are read with `fmt.get(k)`, which cannot tell
the two cases apart, so a single `Option` suffices for them. -/
structure RawFormat where
  format_id : Option String := none
  ext : Option String := none
  format_note : Option (Option String) := none
  filesize : Option Int := none
  url : Option String := none
  vcodec : Option String := none
  acodec : Option String := none
  width : Option Int := none
  height : Option Int := none
  fps : Option Int := none
  tbr : Option Int := none
deriving DecidableEq

/-- The top-level mapping returned by `ydl.extract_info`.  `formats` stands
for `info.get('formats', [])`, with a missing key already folded to `[]`. -/
structure RawInfo where
  title : Option String := none
  description : Option String := none
  duration : Option Int := none
  thumbnail : Option String := none
  uploader : Option String := none
  upload_date : Option String := none
  view_count : Option Int := none
  like_count : Option Int := none
  formats : List RawFormat := []

/-- What `scrape_tiktok_manual` observes of a fetched page after
BeautifulSoup parsing.  `rehydrationScript = some c` means the script tag
with id `__UNIVERSAL_DATA_FOR_REHYDRATION__` was found and its `.string` is
`c` (Python `None` when `c = none`); `ogVideo`/`ogImage` likewise pair the
presence of the meta tag with its optional `content` attribute. -/
structure Page where
  rehydrationScript : Option (Option String) := none
  titleTag : Option String := none
  ogVideo : Option (Option String) := none
  ogImage : Option (Option String) := none
deriving DecidableEq

/-- The response dict.  Python builds dicts with per-platform key subsets; a
key a given path does not set is modelled by the field's default (`none`,
`[]`, or `""` for `error`). -/
structure MediaResult where
  success : Bool
  platform : String
  title : Option String := none
  description : Option String := none
  duration : Option Int := none
  thumbnail : Option String := none
  uploader : Option String := none
  upload_date : Option String := none
  view_count : Option Int := none
  like_count : Option Int := none
  formats : List FormatRecord := []
  total_formats : Option Nat := none
  error : String := ""
deriving DecidableEq

/-- The two external collaborators, taken as opaque oracles: `extract` is
`ydl.extract_info(url, download=False)` (an `Except.error` is a raised
exception carrying `str(e)`), `fetch` is `self.session.get(url)` followed by
`raise_for_status()` and BeautifulSoup parsing (an `Except.error` is a
network error or a non-2xx status). -/
structure Env where
  extract : String → Except String RawInfo
  fetch : String → Except String Page

/-! ### Normalization (the per-platform format loops) -/

/-- Python truthiness of `fmt.get('url')`: present, non-`None` and non-empty. -/
def pyTruthyStr : Option String → Bool
  | none => false
  | some s => ! (s == "")

/-- `fmt.get('format_note', 'Unknown')`: the default fires only when the key
is missing; a present `None` value is copied verbatim. -/
def noteToQuality : Option (Option String) → Option String
  | none => some "Unknown"
  | some v => v

/-- The `format_info` dict built by `scrape_youtube` (lines 84-96). -/
def ytFormatInfo (fmt : RawFormat) : FormatRecord :=
  { format_id := fmt.format_id, ext := fmt.ext, quality := noteToQuality fmt.format_note,
    filesize := fmt.filesize, url := fmt.url.getD "", vcodec := fmt.vcodec,
    acodec := fmt.acodec, width := fmt.width, height := fmt.height, fps := fmt.fps,
    tbr := fmt.tbr }

/-- The `format_info` dict built by `scrape_tiktok` (lines 137-146): no
`vcodec`, `acodec` or `fps` keys. -/
def ttFormatInfo (fmt : RawFormat) : FormatRecord :=
  { format_id := fmt.format_id, ext := fmt.ext, quality := noteToQuality fmt.format_note,
    filesize := fmt.filesize, url := fmt.url.getD "", width := fmt.width,
    height := fmt.height, tbr := fmt.tbr }

/-- The `format_info` dict built by `scrape_instagram`, `scrape_twitter` and
`scrape_with_ytdlp`: no `vcodec`, `acodec`, `fps` or `tbr` keys. -/
def basicFormatInfo (fmt : RawFormat) : FormatRecord :=
  { format_id := fmt.format_id, ext := fmt.ext, quality := noteToQuality fmt.format_note,
    filesize := fmt.filesize, url := fmt.url.getD "", width := fmt.width,
    height := fmt.height }

/-- The `for fmt in info.get('formats', [])` loop with its
`if fmt.get('url')` guard, parameterized by the per-platform projection. -/
def normalizeFormats (proj : RawFormat → FormatRecord) (fmts : List RawFormat) :
    List FormatRecord :=
  fmts.filterMap (fun fmt => if pyTruthyStr fmt.url then some (proj fmt) else none)

def normalizeYoutube (fmts : List RawFormat) : List FormatRecord :=
  normalizeFormats ytFormatInfo fmts

def normalizeTiktok (fmts : List RawFormat) : List FormatRecord :=
  normalizeFormats ttFormatInfo fmts

def normalizeBasic (fmts : List RawFormat) : List FormatRecord :=
  normalizeFormats basicFormatInfo fmts

/-! ### The per-platform scrape methods -/

/-- `MediaScraper.scrape_youtube` (lines 69-119). -/
def scrape_youtube (env : Env) (url : String) : MediaResult :=
  match env.extract url with
  | Except.ok info =>
    { success := true, platform := "youtube", title := info.title,
      description := info.description, duration := info.duration,
      thumbnail := info.thumbnail, uploader := info.uploader,
      upload_date := info.upload_date, view_count := info.view_count,
      like_count := info.like_count, formats := normalizeYoutube info.formats }
  | Except.error e =>
    { success := false, platform := "youtube", error := "YouTube scraping failed: " ++ e }

/-- The formats list of `scrape_tiktok_manual` (lines 199-206): one record
exactly when the `og:video` meta tag is present with truthy content. -/
def manualFormats (page : Page) : List FormatRecord :=
  match page.ogVideo with
  | some (some c) =>
    if c == "" then []
    else [{ format_id := some "mp4", ext := some "mp4", quality := some "default", url := c }]
  | _ => []

/-- `og_image['content'] if og_image else None` (line 212): a present tag
without a `content` attribute raises `KeyError`. -/
def manualThumb (page : Page) : Except String (Option String) :=
  match page.ogImage with
  | none => Except.ok none
  | some none => Except.error "KeyError: content"
  | some (some c) => Except.ok (some c)

/-- `title_tag.text if title_tag else "TikTok Video"` (lines 192-193). -/
def manualTitle (page : Page) : String :=
  match page.titleTag with
  | some t => t
  | none => "TikTok Video"

/-- The body of the `try` block of `scrape_tiktok_manual` (lines 170-214).
When the rehydration script tag is present with `.string` equal to `None`,
`json.loads(None)` raises a `TypeError` that the inner
`except json.JSONDecodeError` does not catch; in every other case the JSON
branch falls through (a parse failure is passed over, and a parse success
feeds `extract_tiktok_data`, which always returns `None`). -/
def tiktokManualBody (env : Env) (url : String) : Except String MediaResult :=
  match env.fetch url with
  | Except.error e => Except.error e
  | Except.ok page =>
    match page.rehydrationScript with
    | some none => Except.error "the JSON object must be str, bytes or bytearray, not NoneType"
    | _ =>
      match manualThumb page with
      | Except.error e => Except.error e
      | Except.ok thumb =>
        Except.ok { success := true, platform := "tiktok", title := some (manualTitle page),
                    thumbnail := thumb, formats := manualFormats page }

/-- `MediaScraper.scrape_tiktok_manual` (lines 168-222). -/
def scrape_tiktok_manual (env : Env) (url : String) : MediaResult :=
  match tiktokManualBody env url with
  | Except.ok r => r
  | Except.error e =>
    { success := false, platform := "tiktok", error := "TikTok scraping failed: " ++ e }

/-- `MediaScraper.scrape_tiktok` (lines 121-166): on any engine error the
`except` branch returns `scrape_tiktok_manual(url)`. -/
def scrape_tiktok (env : Env) (url : String) : MediaResult :=
  match env.extract url with
  | Except.ok info =>
    { success := true, platform := "tiktok", title := info.title,
      description := info.description, duration := info.duration,
      thumbnail := info.thumbnail, uploader := info.uploader,
      upload_date := info.upload_date, view_count := info.view_count,
      like_count := info.like_count, formats := normalizeTiktok info.formats }
  | Except.error _ => scrape_tiktok_manual env url

/-- `MediaScraper.scrape_instagram` (lines 233-275). -/
def scrape_instagram (env : Env) (url : String) : MediaResult :=
  match env.extract url with
  | Except.ok info =>
    { success := true, platform := "instagram", title := info.title,
      description := info.description, thumbnail := info.thumbnail,
      uploader := info.uploader, formats := normalizeBasic info.formats }
  | Except.error e =>
    { success := false, platform := "instagram", error := "Instagram scraping failed: " ++ e }

/-- `MediaScraper.scrape_twitter` (lines 277-319). -/
def scrape_twitter (env : Env) (url : String) : MediaResult :=
  match env.extract url with
  | Except.ok info =>
    { success := true, platform := "twitter", title := info.title,
      description := info.description, thumbnail := info.thumbnail,
      uploader := info.uploader, formats := normalizeBasic info.formats }
  | Except.error e =>
    { success := false, platform := "twitter", error := "Twitter scraping failed: " ++ e }

/-- `MediaScraper.scrape_with_ytdlp` (lines 321-363). -/
def scrape_with_ytdlp (env : Env) (url : String) : MediaResult :=
  match env.extract url with
  | Except.ok info =>
    { success := true, platform := "generic", title := info.title,
      description := info.description, thumbnail := info.thumbnail,
      uploader := info.uploader, formats := normalizeBasic info.formats }
  | Except.error e =>
    { success := false, platform := "generic", error := "Generic scraping failed: " ++ e }

/-- The `try` block of `scrape_media` (lines 46-59).  The only statement in
it that can raise is `identify_platform` (every dispatched method catches its
own exceptions), and when it raises the local `platform` is still unbound. -/
def scrapeMediaBody (env : Env) (url : String) : Except String MediaResult :=
  match identify_platform url with
  | Except.error e => Except.error e
  | Except.ok platform =>
    Except.ok
      (if platform == "youtube" then scrape_youtube env url
       else if platform == "tiktok" then scrape_tiktok env url
       else if platform == "instagram" then scrape_instagram env url
       else if platform == "twitter" then scrape_twitter env url
       else scrape_with_ytdlp env url)

/-- `MediaScraper.scrape_media` (lines 44-67).  The `except` branch returns
`{'success': False, 'error': str(e), 'platform': 'unknown'}` because
`platform` is unbound whenever the `try` block raises. -/
def scrape_media (env : Env) (url : String) : Except String MediaResult :=
  match scrapeMediaBody env url with
  | Except.ok r => Except.ok r
  | Except.error e =>
    Except.ok { success := false, platform := "unknown", error := e }

/-! ### The format/quality filter block of `GET /scrape` (src/app.py 132-148)

Both list comprehensions read `fmt.get('ext', '')` / `fmt.get('quality', '')`.
Every record the scraper builds carries both keys, so the `''` defaults never
fire; but the values can be Python `None`, and `None.lower()` raises an
`AttributeError` that escapes the comprehension.  The message is modelled by
`attrErrLower`. -/

def attrErrLower : String := "AttributeError: NoneType object has no attribute lower"

/-- The comprehension
`[fmt for fmt in filtered_formats if fmt.get('ext', '').lower() == format_filter.lower()]`. -/
def applyFormatFilter (f : String) : List FormatRecord → Except String (List FormatRecord)
  | [] => Except.ok []
  | r :: rs =>
    match r.ext with
    | none => Except.error attrErrLower
    | some e =>
      match applyFormatFilter f rs with
      | Except.error msg => Except.error msg
      | Except.ok rest => Except.ok (if pyLower e == pyLower f then r :: rest else rest)

/-- The comprehension
`[fmt for fmt in filtered_formats if quality_filter.lower() in fmt.get('quality', '').lower()]`. -/
def applyQualityFilter (q : String) : List FormatRecord → Except String (List FormatRecord)
  | [] => Except.ok []
  | r :: rs =>
    match r.quality with
    | none => Except.error attrErrLower
    | some v =>
      match applyQualityFilter q rs with
      | Except.error msg => Except.error msg
      | Except.ok rest => Except.ok (if hasSub (pyLower q) (pyLower v) then r :: rest else rest)

/-- The filter block as the code runs it: format filter first, then quality
filter on its output. -/
def formatThenQuality (f q : String) (fs : List FormatRecord) :
    Except String (List FormatRecord) :=
  match applyFormatFilter f fs with
  | Except.error msg => Except.error msg
  | Except.ok fs1 => applyQualityFilter q fs1

/-- The two filters composed in the opposite order. -/
def qualityThenFormat (f q : String) (fs : List FormatRecord) :
    Except String (List FormatRecord) :=
  match applyQualityFilter q fs with
  | Except.error msg => Except.error msg
  | Except.ok fs1 => applyFormatFilter f fs1

/-- The per-record predicate of the format filter, defined on records whose
`ext` is a string. -/
def formatKeeps (f : String) (r : FormatRecord) : Bool :=
  match r.ext with
  | some e => pyLower e == pyLower f
  | none => false

/-- The per-record predicate of the quality filter, defined on records whose
`quality` is a string. -/
def qualityKeeps (q : String) (r : FormatRecord) : Bool :=
  match r.quality with
  | some v => hasSub (pyLower q) (pyLower v)
  | none => false

/-- The whole `if result.get('success') and result.get('formats')` block of
`GET /scrape`, truthiness included (`format_filter`/`quality_filter` are
`None` when absent and skipped when empty). -/
def applyFilters (format_filter quality_filter : Option String) (result : MediaResult) :
    Except String MediaResult :=
  if result.success && ! result.formats.isEmpty then
    match (match format_filter with
           | some f => if f == "" then Except.ok result.formats
                       else applyFormatFilter f result.formats
           | none => Except.ok result.formats) with
    | Except.error msg => Except.error msg
    | Except.ok fs1 =>
      match (match quality_filter with
             | some q => if q == "" then Except.ok fs1 else applyQualityFilter q fs1
             | none => Except.ok fs1) with
      | Except.error msg => Except.error msg
      | Except.ok fs2 =>
        Except.ok { result with formats := fs2, total_formats := some fs2.length }
  else Except.ok result

/-! ### Helper lemmas -/

theorem listStartsWith_append (l m : List Char) : listStartsWith l (l ++ m) = true := by
  induction l with
  | nil => rfl
  | cons a as ih => simp [listStartsWith, ih]

theorem strStartsWith_append (p t : String) : strStartsWith p (p ++ t) = true := by
  cases p with
  | mk l =>
    cases t with
    | mk m => exact listStartsWith_append l m

theorem append_ne_empty (s t : String) (h : s.data ≠ []) : s ++ t ≠ "" := by
  intro hc
  have hd : (s ++ t).data = String.data "" := congrArg String.data hc
  have hd2 : s.data ++ t.data = [] := hd
  exact h (List.append_eq_nil.mp hd2).1

/-- The if/elif chain of `identify_platform` only produces the five tags. -/
theorem identifyFromNetloc_cases (nl : String) :
    identifyFromNetloc nl = "youtube" ∨ identifyFromNetloc nl = "tiktok" ∨
    identifyFromNetloc nl = "instagram" ∨ identifyFromNetloc nl = "twitter" ∨
    identifyFromNetloc nl = "unknown" := by
  unfold identifyFromNetloc
  split
  · simp
  split
  · simp
  split
  · simp
  split
  · simp
  simp

/-- The only exception `urlparse` (and hence `identify_platform`) raises is
the unbalanced-bracket `ValueError`. -/
theorem identify_platform_error_msg (url e : String)
    (h : identify_platform url = Except.error e) : e = "Invalid IPv6 URL" := by
  unfold identify_platform at h
  cases hu : urlsplitNetloc url with
  | error e2 =>
    rw [hu] at h
    unfold urlsplitNetloc at hu
    split at hu
    · split at hu
      · cases hu
        cases h
        rfl
      · cases hu
    · cases hu
  | ok nl =>
    rw [hu] at h
    cases h

/-! ### Claim C1 -/

/-- C1: for every URL whose network-location `urlparse` computes, the
platform tag returned by `identify_platform` is exactly the spec's ordered
cascade of case-insensitive containment tests — youtube.com/youtu.be, then
tiktok.com, then instagram.com, then twitter.com/x.com, else unknown —
applied to the lowercased netloc. -/
theorem identify_platform_follows_table (u d : String)
    (h : urlsplitNetloc u = Except.ok d) :
    identify_platform u = Except.ok (specPlatformTag (pyLower d)) := by
  unfold identify_platform
  rw [h]
  exact rfl

/-- Witness for C1 on the spec's own scenario URL. -/
theorem identify_platform_follows_table_witness :
    identify_platform "https://www.youtube.com/watch?v=dQw4w9WgXcQ" =
      Except.ok (specPlatformTag (pyLower "www.youtube.com")) :=
  identify_platform_follows_table "https://www.youtube.com/watch?v=dQw4w9WgXcQ"
    "www.youtube.com" (by rfl)

/-! ### Claim C7 -/

/-- Counterexample to C7: `identify_platform` is claimed never to fail, but
on the malformed URL `"http://["` the `urlparse` call raises
`ValueError("Invalid IPv6 URL")`, which `identify_platform` does not catch;
the input does not fall through to the tag `"unknown"`. -/
theorem identify_platform_raises_on_bracket :
    identify_platform "http://[" = Except.error "Invalid IPv6 URL" := by rfl

/-- C7 as amended: for every URL string the URL parser accepts (its netloc
has no unbalanced square bracket), `identify_platform` returns one of the
five platform tags without raising; malformed URLs of that kind fall through
to `"unknown"`, but a URL whose netloc has an unbalanced bracket makes
`urlparse` raise `ValueError` instead. -/
theorem identify_platform_total_of_parse (u : String)
    (h : (urlsplitNetloc u).isOk = true) :
    ∃ t, identify_platform u = Except.ok t ∧
      (t = "youtube" ∨ t = "tiktok" ∨ t = "instagram" ∨ t = "twitter" ∨ t = "unknown") := by
  cases hu : urlsplitNetloc u with
  | error e =>
    rw [hu] at h
    simp [Except.isOk, Except.toBool] at h
  | ok nl =>
    refine ⟨identifyFromNetloc nl, ?_, identifyFromNetloc_cases nl⟩
    unfold identify_platform
    rw [hu]

/-- Witness for C7 as amended, at a URL with no recognized domain. -/
theorem identify_platform_total_of_parse_witness :
    ∃ t, identify_platform "https://example.com/video" = Except.ok t ∧
      (t = "youtube" ∨ t = "tiktok" ∨ t = "instagram" ∨ t = "twitter" ∨ t = "unknown") :=
  identify_platform_total_of_parse "https://example.com/video" (by rfl)

/-! ### Lemmas about the scrape methods -/

theorem identify_platform_ok_cases (url p : String)
    (h : identify_platform url = Except.ok p) :
    p = "youtube" ∨ p = "tiktok" ∨ p = "instagram" ∨ p = "twitter" ∨ p = "unknown" := by
  unfold identify_platform at h
  cases hu : urlsplitNetloc url with
  | error e => rw [hu] at h; cases h
  | ok nl =>
    rw [hu] at h
    injection h with h2
    rw [← h2]
    exact identifyFromNetloc_cases nl

theorem url_ne_of_mem_normalizeFormats (proj : RawFormat → FormatRecord)
    (hproj : ∀ fmt, (proj fmt).url = fmt.url.getD "")
    (fmts : List RawFormat) (r : FormatRecord)
    (h : r ∈ normalizeFormats proj fmts) : r.url ≠ "" := by
  unfold normalizeFormats at h
  rcases List.mem_filterMap.mp h with ⟨fmt, _, hf⟩
  by_cases ht : pyTruthyStr fmt.url = true
  · rw [if_pos ht] at hf
    injection hf with hf2
    rw [← hf2, hproj]
    cases hu : fmt.url with
    | none => rw [hu] at ht; simp [pyTruthyStr] at ht
    | some s =>
      rw [hu] at ht
      simp only [pyTruthyStr, Bool.not_eq_true', beq_eq_false_iff_ne, ne_eq] at ht
      simpa using ht
  · rw [if_neg ht] at hf
    cases hf

theorem scrape_youtube_url_inv (env : Env) (url : String) :
    ∀ fr ∈ (scrape_youtube env url).formats, fr.url ≠ "" := by
  intro fr hfr
  cases he : env.extract url with
  | ok info =>
    simp only [scrape_youtube, he, normalizeYoutube] at hfr
    exact url_ne_of_mem_normalizeFormats ytFormatInfo (fun _ => rfl) info.formats fr hfr
  | error e =>
    simp [scrape_youtube, he] at hfr

theorem scrape_tiktok_engine_url_inv (env : Env) (url : String) (info : RawInfo)
    (he : env.extract url = Except.ok info) :
    ∀ fr ∈ (scrape_tiktok env url).formats, fr.url ≠ "" := by
  intro fr hfr
  simp only [scrape_tiktok, he, normalizeTiktok] at hfr
  exact url_ne_of_mem_normalizeFormats ttFormatInfo (fun _ => rfl) info.formats fr hfr

theorem manualFormats_url_inv (page : Page) :
    ∀ fr ∈ manualFormats page, fr.url ≠ "" := by
  intro fr hfr
  unfold manualFormats at hfr
  cases hov : page.ogVideo with
  | none => simp only [hov] at hfr; simp at hfr
  | some c =>
    cases c with
    | none => simp only [hov] at hfr; simp at hfr
    | some s =>
      simp only [hov] at hfr
      by_cases hc : (s == "") = true
      · rw [if_pos hc] at hfr
        simp at hfr
      · rw [if_neg hc] at hfr
        simp only [List.mem_singleton] at hfr
        rw [hfr]
        simpa using hc

/-- Every successful outcome of the manual TikTok path reports
`success=true`, comes from a fetched page, and carries that page's
`og:video`-derived formats. -/
theorem tiktokManualBody_ok_shape (env : Env) (url : String) (r : MediaResult)
    (hb : tiktokManualBody env url = Except.ok r) :
    r.success = true ∧ r.platform = "tiktok" ∧
      ∃ page, env.fetch url = Except.ok page ∧ r.formats = manualFormats page := by
  unfold tiktokManualBody at hb
  cases hf : env.fetch url with
  | error e => rw [hf] at hb; cases hb
  | ok page =>
    rw [hf] at hb
    have finish : ∀ h2 : (match manualThumb page with
        | Except.error e => Except.error e
        | Except.ok thumb =>
          Except.ok { success := true, platform := "tiktok", title := some (manualTitle page),
                      thumbnail := thumb, formats := manualFormats page }) = Except.ok r,
        r.success = true ∧ r.platform = "tiktok" ∧
          ∃ page2, (Except.ok page : Except String Page) = Except.ok page2 ∧
            r.formats = manualFormats page2 := by
      intro h2
      cases hmt : manualThumb page with
      | error e => rw [hmt] at h2; cases h2
      | ok thumb =>
        rw [hmt] at h2
        injection h2 with h3
        rw [← h3]
        exact ⟨rfl, rfl, page, rfl, rfl⟩
    cases hrs : page.rehydrationScript with
    | none =>
      simp only [hrs] at hb
      exact finish hb
    | some c =>
      cases c with
      | none => simp only [hrs] at hb; cases hb
      | some s =>
        simp only [hrs] at hb
        exact finish hb

theorem scrape_tiktok_manual_url_inv (env : Env) (url : String) :
    ∀ fr ∈ (scrape_tiktok_manual env url).formats, fr.url ≠ "" := by
  intro fr hfr
  unfold scrape_tiktok_manual at hfr
  cases hb : tiktokManualBody env url with
  | error e => simp only [hb] at hfr; simp at hfr
  | ok r =>
    simp only [hb] at hfr
    rcases tiktokManualBody_ok_shape env url r hb with ⟨-, -, page, -, hform⟩
    rw [hform] at hfr
    exact manualFormats_url_inv page fr hfr

theorem scrape_tiktok_url_inv (env : Env) (url : String) :
    ∀ fr ∈ (scrape_tiktok env url).formats, fr.url ≠ "" := by
  intro fr hfr
  cases he : env.extract url with
  | ok info => exact scrape_tiktok_engine_url_inv env url info he fr hfr
  | error e =>
    simp only [scrape_tiktok, he] at hfr
    exact scrape_tiktok_manual_url_inv env url fr hfr

theorem scrape_instagram_url_inv (env : Env) (url : String) :
    ∀ fr ∈ (scrape_instagram env url).formats, fr.url ≠ "" := by
  intro fr hfr
  cases he : env.extract url with
  | ok info =>
    simp only [scrape_instagram, he, normalizeBasic] at hfr
    exact url_ne_of_mem_normalizeFormats basicFormatInfo (fun _ => rfl) info.formats fr hfr
  | error e =>
    simp [scrape_instagram, he] at hfr

theorem scrape_twitter_url_inv (env : Env) (url : String) :
    ∀ fr ∈ (scrape_twitter env url).formats, fr.url ≠ "" := by
  intro fr hfr
  cases he : env.extract url with
  | ok info =>
    simp only [scrape_twitter, he, normalizeBasic] at hfr
    exact url_ne_of_mem_normalizeFormats basicFormatInfo (fun _ => rfl) info.formats fr hfr
  | error e =>
    simp [scrape_twitter, he] at hfr

theorem scrape_with_ytdlp_url_inv (env : Env) (url : String) :
    ∀ fr ∈ (scrape_with_ytdlp env url).formats, fr.url ≠ "" := by
  intro fr hfr
  cases he : env.extract url with
  | ok info =>
    simp only [scrape_with_ytdlp, he, normalizeBasic] at hfr
    exact url_ne_of_mem_normalizeFormats basicFormatInfo (fun _ => rfl) info.formats fr hfr
  | error e =>
    simp [scrape_with_ytdlp, he] at hfr

/-- Failure contract of one scrape method: on `success=false` the result
carries the method's platform tag and a diagnostic that starts with the
method's fixed message head (hence is non-empty). -/
def failsWith (m : MediaResult) (tag head : String) : Prop :=
  m.success = false → m.platform = tag ∧ strStartsWith head m.error = true ∧ m.error ≠ ""

theorem failsWith_of_prefixed (m : MediaResult) (tag head e : String)
    (hplat : m.platform = tag) (herr : m.error = head ++ e) (hhead : head.data ≠ []) :
    failsWith m tag head := by
  intro _
  refine ⟨hplat, ?_, ?_⟩
  · rw [herr]; exact strStartsWith_append head e
  · rw [herr]; exact append_ne_empty head e hhead

theorem scrape_youtube_failsWith (env : Env) (url : String) :
    failsWith (scrape_youtube env url) "youtube" "YouTube scraping failed: " := by
  cases he : env.extract url with
  | ok info => intro h; simp [scrape_youtube, he] at h
  | error e =>
    have h1 : scrape_youtube env url =
        { success := false, platform := "youtube", error := "YouTube scraping failed: " ++ e } := by
      simp [scrape_youtube, he]
    exact failsWith_of_prefixed _ _ _ e (by rw [h1]) (by rw [h1]) (by decide)

theorem scrape_instagram_failsWith (env : Env) (url : String) :
    failsWith (scrape_instagram env url) "instagram" "Instagram scraping failed: " := by
  cases he : env.extract url with
  | ok info => intro h; simp [scrape_instagram, he] at h
  | error e =>
    have h1 : scrape_instagram env url =
        { success := false, platform := "instagram", error := "Instagram scraping failed: " ++ e } := by
      simp [scrape_instagram, he]
    exact failsWith_of_prefixed _ _ _ e (by rw [h1]) (by rw [h1]) (by decide)

theorem scrape_twitter_failsWith (env : Env) (url : String) :
    failsWith (scrape_twitter env url) "twitter" "Twitter scraping failed: " := by
  cases he : env.extract url with
  | ok info => intro h; simp [scrape_twitter, he] at h
  | error e =>
    have h1 : scrape_twitter env url =
        { success := false, platform := "twitter", error := "Twitter scraping failed: " ++ e } := by
      simp [scrape_twitter, he]
    exact failsWith_of_prefixed _ _ _ e (by rw [h1]) (by rw [h1]) (by decide)

theorem scrape_with_ytdlp_failsWith (env : Env) (url : String) :
    failsWith (scrape_with_ytdlp env url) "generic" "Generic scraping failed: " := by
  cases he : env.extract url with
  | ok info => intro h; simp [scrape_with_ytdlp, he] at h
  | error e =>
    have h1 : scrape_with_ytdlp env url =
        { success := false, platform := "generic", error := "Generic scraping failed: " ++ e } := by
      simp [scrape_with_ytdlp, he]
    exact failsWith_of_prefixed _ _ _ e (by rw [h1]) (by rw [h1]) (by decide)

theorem scrape_tiktok_manual_failsWith (env : Env) (url : String) :
    failsWith (scrape_tiktok_manual env url) "tiktok" "TikTok scraping failed: " := by
  cases hb : tiktokManualBody env url with
  | ok r =>
    intro h
    unfold scrape_tiktok_manual at h
    rw [hb] at h
    rcases tiktokManualBody_ok_shape env url r hb with ⟨hs, -, -⟩
    rw [hs] at h
    cases h
  | error e =>
    have h1 : scrape_tiktok_manual env url =
        { success := false, platform := "tiktok", error := "TikTok scraping failed: " ++ e } := by
      unfold scrape_tiktok_manual
      rw [hb]
    exact failsWith_of_prefixed _ _ _ e (by rw [h1]) (by rw [h1]) (by decide)

theorem scrape_tiktok_failsWith (env : Env) (url : String) :
    failsWith (scrape_tiktok env url) "tiktok" "TikTok scraping failed: " := by
  cases he : env.extract url with
  | ok info => intro h; simp [scrape_tiktok, he] at h
  | error e =>
    have h1 : scrape_tiktok env url = scrape_tiktok_manual env url := by
      simp [scrape_tiktok, he]
    rw [failsWith, h1]
    exact scrape_tiktok_manual_failsWith env url

/-! ### Claim C2 -/

/-- C2: for every URL and every behaviour of the extraction engine and of the
HTTP fetch — raised errors included — `scrape_media` returns a result (the
`Except.ok` on the outside: no fault propagates to the caller), and any
failure is a structured result whose `error` string is non-empty. -/
theorem scrape_media_never_raises (env : Env) (url : String) :
    ∃ r, scrape_media env url = Except.ok r ∧ (r.success = false → r.error ≠ "") := by
  unfold scrape_media
  cases hb : scrapeMediaBody env url with
  | error e =>
    refine ⟨_, rfl, fun _ => ?_⟩
    show e ≠ ""
    have hid : identify_platform url = Except.error e := by
      unfold scrapeMediaBody at hb
      cases hi : identify_platform url with
      | error e2 =>
        rw [hi] at hb
        injection hb with h2
        rw [h2]
      | ok p => rw [hi] at hb; cases hb
    rw [identify_platform_error_msg url e hid]
    decide
  | ok r =>
    refine ⟨r, rfl, ?_⟩
    unfold scrapeMediaBody at hb
    cases hi : identify_platform url with
    | error e => rw [hi] at hb; cases hb
    | ok p =>
      rw [hi] at hb
      injection hb with hb2
      intro hfail
      rw [← hb2] at hfail ⊢
      by_cases h1 : (p == "youtube") = true
      · rw [if_pos h1] at hfail ⊢
        exact (scrape_youtube_failsWith env url hfail).2.2
      · rw [if_neg h1] at hfail ⊢
        by_cases h2 : (p == "tiktok") = true
        · rw [if_pos h2] at hfail ⊢
          exact (scrape_tiktok_failsWith env url hfail).2.2
        · rw [if_neg h2] at hfail ⊢
          by_cases h3 : (p == "instagram") = true
          · rw [if_pos h3] at hfail ⊢
            exact (scrape_instagram_failsWith env url hfail).2.2
          · rw [if_neg h3] at hfail ⊢
            by_cases h4 : (p == "twitter") = true
            · rw [if_pos h4] at hfail ⊢
              exact (scrape_twitter_failsWith env url hfail).2.2
            · rw [if_neg h4] at hfail ⊢
              exact (scrape_with_ytdlp_failsWith env url hfail).2.2

/-! ### Claim C4 -/

/-- C4: every `FormatRecord` in the formats list of a successful
`scrape_media` result has a non-empty `url` — engine entries without a
truthy direct URL are dropped by the `if fmt.get('url')` guard before
normalization, and the manual fallback emits its single format only for an
`og:video` tag with non-empty content. -/
theorem success_formats_url_nonempty (env : Env) (url : String) (r : MediaResult)
    (hr : scrape_media env url = Except.ok r) (hs : r.success = true) :
    ∀ fr, fr ∈ r.formats → fr.url ≠ "" := by
  intro fr hfr
  unfold scrape_media at hr
  cases hb : scrapeMediaBody env url with
  | error e =>
    rw [hb] at hr
    injection hr with hr2
    rw [← hr2] at hs
    simp at hs
  | ok r0 =>
    rw [hb] at hr
    injection hr with hr2
    rw [← hr2] at hfr
    unfold scrapeMediaBody at hb
    cases hi : identify_platform url with
    | error e => rw [hi] at hb; cases hb
    | ok p =>
      rw [hi] at hb
      injection hb with hb2
      rw [← hb2] at hfr
      by_cases h1 : (p == "youtube") = true
      · rw [if_pos h1] at hfr
        exact scrape_youtube_url_inv env url fr hfr
      · rw [if_neg h1] at hfr
        by_cases h2 : (p == "tiktok") = true
        · rw [if_pos h2] at hfr
          exact scrape_tiktok_url_inv env url fr hfr
        · rw [if_neg h2] at hfr
          by_cases h3 : (p == "instagram") = true
          · rw [if_pos h3] at hfr
            exact scrape_instagram_url_inv env url fr hfr
          · rw [if_neg h3] at hfr
            by_cases h4 : (p == "twitter") = true
            · rw [if_pos h4] at hfr
              exact scrape_twitter_url_inv env url fr hfr
            · rw [if_neg h4] at hfr
              exact scrape_with_ytdlp_url_inv env url fr hfr

/-! ### Concrete environments used by witnesses and counterexamples -/

/-- A raw engine format entry with a truthy URL. -/
def rawA : RawFormat := { ext := some "mp4", format_note := some (some "720p"), url := some "http://a" }

/-- A raw engine format entry with no URL attribute. -/
def rawNoUrl : RawFormat := { ext := some "webm" }

/-- A raw engine format entry whose URL attribute is the empty string. -/
def rawEmptyUrl : RawFormat := { url := some "" }

/-- An environment whose engine succeeds with three format entries (only one
has a truthy URL) and whose HTTP fetch fails. -/
def envOkYt : Env :=
  { extract := fun _ => Except.ok { title := some "T", formats := [rawA, rawNoUrl, rawEmptyUrl] },
    fetch := fun _ => Except.error "net down" }

/-- An environment whose engine and HTTP fetch always raise. -/
def envFail : Env :=
  { extract := fun _ => Except.error "boom", fetch := fun _ => Except.error "net down" }

/-- Witness for C4: the one surviving normalized record of a concrete
successful YouTube scrape has a non-empty URL. -/
theorem success_formats_url_nonempty_witness : (ytFormatInfo rawA).url ≠ "" :=
  success_formats_url_nonempty envOkYt "https://youtu.be/x"
    (scrape_youtube envOkYt "https://youtu.be/x") (by rfl) (by rfl)
    (ytFormatInfo rawA) (by decide)

/-! ### Claims C5 and C6 -/

/-- The fixed diagnostic head each platform path writes in front of
`str(e)` in its failure result. -/
def failMsgHead (p : String) : String :=
  if p == "youtube" then "YouTube scraping failed: "
  else if p == "tiktok" then "TikTok scraping failed: "
  else if p == "instagram" then "Instagram scraping failed: "
  else if p == "twitter" then "Twitter scraping failed: "
  else "Generic scraping failed: "

/-- The failure dict each non-tiktok platform path returns when the engine
call raises with message `e`. -/
def engineFailResult (p e : String) : MediaResult :=
  if p == "youtube" then
    { success := false, platform := "youtube", error := "YouTube scraping failed: " ++ e }
  else if p == "instagram" then
    { success := false, platform := "instagram", error := "Instagram scraping failed: " ++ e }
  else if p == "twitter" then
    { success := false, platform := "twitter", error := "Twitter scraping failed: " ++ e }
  else
    { success := false, platform := "generic", error := "Generic scraping failed: " ++ e }

/-- When identification succeeds, `scrape_media` returns the result of the
if/elif dispatch on the tag. -/
theorem scrape_media_dispatch (env : Env) (url p : String)
    (hid : identify_platform url = Except.ok p) :
    scrape_media env url = Except.ok
      (if p == "youtube" then scrape_youtube env url
       else if p == "tiktok" then scrape_tiktok env url
       else if p == "instagram" then scrape_instagram env url
       else if p == "twitter" then scrape_twitter env url
       else scrape_with_ytdlp env url) := by
  unfold scrape_media scrapeMediaBody
  rw [hid]

/-- Counterexample to C5: on a URL identified as `unknown` with a failing
engine, the failure result's `platform` is `"generic"`, not the tag
`"unknown"` that `identify_platform` returned (and not a regression caused
by identification failing — identification succeeded here). -/
theorem platform_on_error_counterexample :
    identify_platform "https://example.com/video" = Except.ok "unknown" ∧
    scrape_media envFail "https://example.com/video" =
      Except.ok { success := false, platform := "generic",
                  error := "Generic scraping failed: boom" } ∧
    ("generic" : String) ≠ "unknown" := by
  refine ⟨by rfl, by rfl, by decide⟩

/-- C5 as amended: a failure result of `scrape_media` carries a non-empty
platform-prefixed diagnostic and the identified tag as `platform`, except
that a URL identified as `unknown` reports `platform="generic"` (the generic
path's own tag), and when identification itself raises the result carries
`platform="unknown"` and the raw exception message with no platform head. -/
theorem scrape_error_contract (env : Env) (url : String) (r : MediaResult)
    (hr : scrape_media env url = Except.ok r) (hf : r.success = false) :
    (∀ e, identify_platform url = Except.error e →
      r.platform = "unknown" ∧ r.error = e) ∧
    (∀ p, identify_platform url = Except.ok p →
      r.platform = (if p == "unknown" then "generic" else p) ∧
      strStartsWith (failMsgHead p) r.error = true) := by
  unfold scrape_media at hr
  cases hb : scrapeMediaBody env url with
  | error e0 =>
    rw [hb] at hr
    injection hr with hr2
    have hid : identify_platform url = Except.error e0 := by
      unfold scrapeMediaBody at hb
      cases hi : identify_platform url with
      | error e2 =>
        rw [hi] at hb
        injection hb with h2
        rw [h2]
      | ok p => rw [hi] at hb; cases hb
    constructor
    · intro e he
      rw [hid] at he
      injection he with he2
      rw [← hr2]
      exact ⟨rfl, he2⟩
    · intro p hp
      rw [hid] at hp
      cases hp
  | ok r0 =>
    rw [hb] at hr
    injection hr with hr2
    subst hr2
    unfold scrapeMediaBody at hb
    cases hi : identify_platform url with
    | error e => rw [hi] at hb; cases hb
    | ok p0 =>
      rw [hi] at hb
      injection hb with hb2
      constructor
      · intro e he
        cases he
      · intro p hp
        injection hp with hp2
        subst hp2
        rw [← hb2] at hf ⊢
        rcases identify_platform_ok_cases url p0 hi with h | h | h | h | h
        all_goals subst h
        · rw [if_pos (by decide : (("youtube" : String) == "youtube") = true)] at hf ⊢
          have h5 := scrape_youtube_failsWith env url hf
          refine ⟨?_, ?_⟩
          · rw [h5.1]; decide
          · rw [show failMsgHead "youtube" = "YouTube scraping failed: " from by decide]
            exact h5.2.1
        · rw [if_neg (by decide : ¬ ((("tiktok" : String) == "youtube") = true)),
              if_pos (by decide : (("tiktok" : String) == "tiktok") = true)] at hf ⊢
          have h5 := scrape_tiktok_failsWith env url hf
          refine ⟨?_, ?_⟩
          · rw [h5.1]; decide
          · rw [show failMsgHead "tiktok" = "TikTok scraping failed: " from by decide]
            exact h5.2.1
        · rw [if_neg (by decide : ¬ ((("instagram" : String) == "youtube") = true)),
              if_neg (by decide : ¬ ((("instagram" : String) == "tiktok") = true)),
              if_pos (by decide : (("instagram" : String) == "instagram") = true)] at hf ⊢
          have h5 := scrape_instagram_failsWith env url hf
          refine ⟨?_, ?_⟩
          · rw [h5.1]; decide
          · rw [show failMsgHead "instagram" = "Instagram scraping failed: " from by decide]
            exact h5.2.1
        · rw [if_neg (by decide : ¬ ((("twitter" : String) == "youtube") = true)),
              if_neg (by decide : ¬ ((("twitter" : String) == "tiktok") = true)),
              if_neg (by decide : ¬ ((("twitter" : String) == "instagram") = true)),
              if_pos (by decide : (("twitter" : String) == "twitter") = true)] at hf ⊢
          have h5 := scrape_twitter_failsWith env url hf
          refine ⟨?_, ?_⟩
          · rw [h5.1]; decide
          · rw [show failMsgHead "twitter" = "Twitter scraping failed: " from by decide]
            exact h5.2.1
        · rw [if_neg (by decide : ¬ ((("unknown" : String) == "youtube") = true)),
              if_neg (by decide : ¬ ((("unknown" : String) == "tiktok") = true)),
              if_neg (by decide : ¬ ((("unknown" : String) == "instagram") = true)),
              if_neg (by decide : ¬ ((("unknown" : String) == "twitter") = true))] at hf ⊢
          have h5 := scrape_with_ytdlp_failsWith env url hf
          refine ⟨?_, ?_⟩
          · rw [h5.1]; decide
          · rw [show failMsgHead "unknown" = "Generic scraping failed: " from by decide]
            exact h5.2.1

/-- Witness for C5 as amended: a concrete failing YouTube scrape. -/
theorem scrape_error_contract_witness :
    (∀ e, identify_platform "https://youtu.be/x" = Except.error e →
      (scrape_youtube envFail "https://youtu.be/x").platform = "unknown" ∧
      (scrape_youtube envFail "https://youtu.be/x").error = e) ∧
    (∀ p, identify_platform "https://youtu.be/x" = Except.ok p →
      (scrape_youtube envFail "https://youtu.be/x").platform =
        (if p == "unknown" then "generic" else p) ∧
      strStartsWith (failMsgHead p) (scrape_youtube envFail "https://youtu.be/x").error = true) :=
  scrape_error_contract envFail "https://youtu.be/x"
    (scrape_youtube envFail "https://youtu.be/x") (by rfl) (by rfl)

/-- C6: when the engine call raises, the tiktok path — and only the tiktok
path — falls through to the manual HTML-scraping fallback and returns its
result; every other identified platform returns its failure dict directly,
no fallback attempted. -/
theorem tiktok_fallback_iff (env : Env) (url e : String)
    (he : env.extract url = Except.error e) :
    (identify_platform url = Except.ok "tiktok" →
      scrape_media env url = Except.ok (scrape_tiktok_manual env url)) ∧
    (∀ p, identify_platform url = Except.ok p → p ≠ "tiktok" →
      scrape_media env url = Except.ok (engineFailResult p e)) := by
  constructor
  · intro hid
    have h1 : scrape_tiktok env url = scrape_tiktok_manual env url := by
      unfold scrape_tiktok
      rw [he]
    rw [scrape_media_dispatch env url "tiktok" hid]
    exact congrArg Except.ok h1
  · intro p hp hne
    rcases identify_platform_ok_cases url p hp with h | h | h | h | h
    all_goals subst h
    · have h2 : scrape_youtube env url =
          { success := false, platform := "youtube", error := "YouTube scraping failed: " ++ e } := by
        unfold scrape_youtube
        rw [he]
      rw [scrape_media_dispatch env url "youtube" hp]
      exact congrArg Except.ok h2
    · exact absurd rfl hne
    · have h2 : scrape_instagram env url =
          { success := false, platform := "instagram", error := "Instagram scraping failed: " ++ e } := by
        unfold scrape_instagram
        rw [he]
      rw [scrape_media_dispatch env url "instagram" hp]
      exact congrArg Except.ok h2
    · have h2 : scrape_twitter env url =
          { success := false, platform := "twitter", error := "Twitter scraping failed: " ++ e } := by
        unfold scrape_twitter
        rw [he]
      rw [scrape_media_dispatch env url "twitter" hp]
      exact congrArg Except.ok h2
    · have h2 : scrape_with_ytdlp env url =
          { success := false, platform := "generic", error := "Generic scraping failed: " ++ e } := by
        unfold scrape_with_ytdlp
        rw [he]
      rw [scrape_media_dispatch env url "unknown" hp]
      exact congrArg Except.ok h2

/-- Witness for C6: with a failing engine, a TikTok URL falls through to the
manual fallback while a YouTube URL reports the direct failure dict. -/
theorem tiktok_fallback_iff_witness :
    scrape_media envFail "https://www.tiktok.com/@u/video/1" =
      Except.ok (scrape_tiktok_manual envFail "https://www.tiktok.com/@u/video/1") ∧
    scrape_media envFail "https://youtu.be/x" = Except.ok (engineFailResult "youtube" "boom") :=
  ⟨(tiktok_fallback_iff envFail "https://www.tiktok.com/@u/video/1" "boom" (by rfl)).1 (by rfl),
   (tiktok_fallback_iff envFail "https://youtu.be/x" "boom" (by rfl)).2 "youtube" (by rfl)
     (by decide)⟩

/-! ### Lemmas about the filter comprehensions -/

theorem applyFormatFilter_total (f : String) (fs : List FormatRecord)
    (h : ∀ r ∈ fs, r.ext ≠ none) :
    applyFormatFilter f fs = Except.ok (fs.filter (formatKeeps f)) := by
  induction fs with
  | nil => rfl
  | cons r rs ih =>
    have hr : r.ext ≠ none := h r (List.mem_cons_self r rs)
    cases hext : r.ext with
    | none => exact absurd hext hr
    | some e =>
      have ih2 := ih (fun x hx => h x (List.mem_cons_of_mem r hx))
      have hk : formatKeeps f r = (pyLower e == pyLower f) := by
        simp only [formatKeeps, hext]
      simp only [applyFormatFilter, hext, ih2, List.filter_cons, hk]

theorem applyQualityFilter_total (q : String) (fs : List FormatRecord)
    (h : ∀ r ∈ fs, r.quality ≠ none) :
    applyQualityFilter q fs = Except.ok (fs.filter (qualityKeeps q)) := by
  induction fs with
  | nil => rfl
  | cons r rs ih =>
    have hr : r.quality ≠ none := h r (List.mem_cons_self r rs)
    cases hqv : r.quality with
    | none => exact absurd hqv hr
    | some v =>
      have ih2 := ih (fun x hx => h x (List.mem_cons_of_mem r hx))
      have hk : qualityKeeps q r = hasSub (pyLower q) (pyLower v) := by
        simp only [qualityKeeps, hqv]
      simp only [applyQualityFilter, hqv, ih2, List.filter_cons, hk]

theorem applyFormatFilter_error (f : String) (fs : List FormatRecord)
    (h : ∃ r ∈ fs, r.ext = none) :
    applyFormatFilter f fs = Except.error attrErrLower := by
  induction fs with
  | nil => rcases h with ⟨r, hr, -⟩; simp at hr
  | cons r rs ih =>
    rcases h with ⟨x, hx, hxe⟩
    rcases List.mem_cons.mp hx with hx1 | hx1
    · subst hx1
      simp only [applyFormatFilter, hxe]
    · cases hext : r.ext with
      | none => simp only [applyFormatFilter, hext]
      | some e =>
        have ih2 := ih ⟨x, hx1, hxe⟩
        simp only [applyFormatFilter, hext, ih2]

theorem applyQualityFilter_error (q : String) (fs : List FormatRecord)
    (h : ∃ r ∈ fs, r.quality = none) :
    applyQualityFilter q fs = Except.error attrErrLower := by
  induction fs with
  | nil => rcases h with ⟨r, hr, -⟩; simp at hr
  | cons r rs ih =>
    rcases h with ⟨x, hx, hxe⟩
    rcases List.mem_cons.mp hx with hx1 | hx1
    · subst hx1
      simp only [applyQualityFilter, hxe]
    · cases hqv : r.quality with
      | none => simp only [applyQualityFilter, hqv]
      | some v =>
        have ih2 := ih ⟨x, hx1, hxe⟩
        simp only [applyQualityFilter, hqv, ih2]

theorem list_filter_filter {α : Type} (p q : α → Bool) (l : List α) :
    (l.filter p).filter q = l.filter (fun a => p a && q a) := by
  induction l with
  | nil => rfl
  | cons a as ih =>
    by_cases hp : p a = true
    · by_cases hq : q a = true
      · simp [List.filter_cons, hp, hq, ih]
      · simp [List.filter_cons, hp, hq, ih]
    · simp [List.filter_cons, hp, ih]

/-! ### Claim C3 -/

/-- C3: whenever the format-filter comprehension completes on a format list,
every record it keeps has an `ext` equal to the filter string
case-insensitively (exact equality, not substring), and the filtered list is
no longer than the input list. -/
theorem format_filter_sound (f : String) (fs out : List FormatRecord)
    (h : applyFormatFilter f fs = Except.ok out) :
    (∀ r ∈ out, ∃ e, r.ext = some e ∧ pyLower e = pyLower f) ∧ out.length ≤ fs.length := by
  induction fs generalizing out with
  | nil =>
    injection h with h2
    subst h2
    exact ⟨by simp, by simp⟩
  | cons r rs ih =>
    cases hext : r.ext with
    | none =>
      simp only [applyFormatFilter, hext] at h
      cases h
    | some e =>
      simp only [applyFormatFilter, hext] at h
      cases hrec : applyFormatFilter f rs with
      | error msg =>
        simp only [hrec] at h
        cases h
      | ok rest =>
        simp only [hrec] at h
        rcases ih rest hrec with ⟨ih1, ih2⟩
        by_cases hc : (pyLower e == pyLower f) = true
        · rw [if_pos hc] at h
          injection h with h2
          subst h2
          constructor
          · intro x hx
            rcases List.mem_cons.mp hx with hx1 | hx1
            · subst hx1
              exact ⟨e, hext, eq_of_beq hc⟩
            · exact ih1 x hx1
          · simpa using Nat.succ_le_succ ih2
        · rw [if_neg hc] at h
          injection h with h2
          subst h2
          exact ⟨ih1, Nat.le_succ_of_le ih2⟩

/-- A record the format filter keeps. -/
def recMp4 : FormatRecord := { ext := some "mp4", quality := some "720p", url := "u1" }

/-- A record the format filter drops. -/
def recM4a : FormatRecord := { ext := some "m4a", quality := some "medium", url := "u2" }

/-- Witness for C3 on the spec's scenario list, with a filter string of
different case. -/
theorem format_filter_sound_witness :
    [recMp4].length ≤ [recMp4, recM4a].length :=
  (format_filter_sound "MP4" [recMp4, recM4a] [recMp4] (by decide)).2

/-! ### Claim C9 -/

/-- A normalized record whose `ext` is a Python `None` (as the normalizer
produces when the engine entry has a URL but no container extension). -/
def nullExtRecord : FormatRecord := { ext := none, quality := some "999", url := "u" }

/-- Counterexample to C9: on a list containing a record with a `None` `ext`,
the code's order (format filter, then quality filter) raises, while the
opposite order succeeds with the empty list — the two orders are not
equivalent, so the combined filter is not order-independent on every format
list. -/
theorem filter_order_counterexample :
    formatThenQuality "mp4" "720" [nullExtRecord] = Except.error attrErrLower ∧
    qualityThenFormat "mp4" "720" [nullExtRecord] = Except.ok [] ∧
    formatThenQuality "mp4" "720" [nullExtRecord] ≠
      qualityThenFormat "mp4" "720" [nullExtRecord] := by
  refine ⟨by decide, by decide, by decide⟩

/-- C9 as amended: on format lists all of whose records carry string `ext`
and `quality` values, applying the two filters in the code's order or in the
opposite order gives the same list, namely the one filtered by the
conjunction of the two per-record predicates. -/
theorem filters_conjunction (f q : String) (fs : List FormatRecord)
    (h : ∀ r ∈ fs, r.ext ≠ none ∧ r.quality ≠ none) :
    formatThenQuality f q fs =
      Except.ok (fs.filter (fun r => formatKeeps f r && qualityKeeps q r)) ∧
    qualityThenFormat f q fs =
      Except.ok (fs.filter (fun r => formatKeeps f r && qualityKeeps q r)) := by
  have hext : ∀ r ∈ fs, r.ext ≠ none := fun r hr => (h r hr).1
  have hql : ∀ r ∈ fs, r.quality ≠ none := fun r hr => (h r hr).2
  constructor
  · unfold formatThenQuality
    rw [applyFormatFilter_total f fs hext]
    have hq2 : ∀ r ∈ fs.filter (formatKeeps f), r.quality ≠ none := by
      intro r hr
      exact hql r (List.mem_of_mem_filter hr)
    show applyQualityFilter q (fs.filter (formatKeeps f)) =
      Except.ok (fs.filter (fun r => formatKeeps f r && qualityKeeps q r))
    rw [applyQualityFilter_total q _ hq2, list_filter_filter]
  · unfold qualityThenFormat
    rw [applyQualityFilter_total q fs hql]
    have he2 : ∀ r ∈ fs.filter (qualityKeeps q), r.ext ≠ none := by
      intro r hr
      exact hext r (List.mem_of_mem_filter hr)
    show applyFormatFilter f (fs.filter (qualityKeeps q)) =
      Except.ok (fs.filter (fun r => formatKeeps f r && qualityKeeps q r))
    rw [applyFormatFilter_total f _ he2, list_filter_filter]
    have hcomm : (fun r => qualityKeeps q r && formatKeeps f r) =
        (fun r => formatKeeps f r && qualityKeeps q r) := by
      funext r
      exact Bool.and_comm _ _
    rw [hcomm]

/-- Witness for C9 as amended: the code's order on a clean two-record list
equals the conjunction filter. -/
theorem filters_conjunction_witness :
    formatThenQuality "mp4" "720" [recMp4, recM4a] =
      Except.ok ([recMp4, recM4a].filter (fun r => formatKeeps "mp4" r && qualityKeeps "720" r)) :=
  (filters_conjunction "mp4" "720" [recMp4, recM4a] (by decide)).1

/-! ### Claim C10 -/

/-- C10: a `None`-valued `ext` (resp. `quality`) in any record of the list
makes the format (resp. quality) filter comprehension raise the
`AttributeError` from `None.lower()` instead of excluding the record, and
each comprehension completes exactly on lists whose relevant field is a
string in every record (returning the predicate-filtered list). -/
theorem filter_null_field_raises (f q : String) (fs : List FormatRecord) :
    ((∃ r ∈ fs, r.ext = none) → applyFormatFilter f fs = Except.error attrErrLower) ∧
    ((∃ r ∈ fs, r.quality = none) → applyQualityFilter q fs = Except.error attrErrLower) ∧
    ((∀ r ∈ fs, r.ext ≠ none) → applyFormatFilter f fs = Except.ok (fs.filter (formatKeeps f))) ∧
    ((∀ r ∈ fs, r.quality ≠ none) →
      applyQualityFilter q fs = Except.ok (fs.filter (qualityKeeps q))) :=
  ⟨applyFormatFilter_error f fs, applyQualityFilter_error q fs,
   applyFormatFilter_total f fs, applyQualityFilter_total q fs⟩

/-! ### Claim C8 -/

/-- A raw engine entry with a URL but no other attribute; in particular its
`format_note` key is missing. -/
def rawNoNote : RawFormat := { url := some "http://v" }

/-- Counterexample to C8: the engine entry `rawNoNote` has no `format_note`
attribute, yet the normalizer emits a record whose `quality` field is the
fabricated default `"Unknown"` rather than an empty/absent value. -/
theorem normalizer_default_counterexample :
    rawNoNote.format_note = none ∧
    normalizeYoutube [rawNoNote] =
      [{ format_id := none, ext := none, quality := some "Unknown", filesize := none,
         url := "http://v", vcodec := none, acodec := none, width := none, height := none,
         fps := none, tbr := none }] := by
  refine ⟨rfl, by decide⟩

/-- C8 as amended: for every engine entry the normalizer retains, every
attribute missing from the raw mapping projects to an absent field — except
`quality`, which receives the fabricated default `"Unknown"` exactly when the
`format_note` key is missing (a present `format_note`, even `None`, is copied
verbatim). -/
theorem normalizer_projection (fs : List RawFormat) (fmt : RawFormat)
    (hmem : fmt ∈ fs) (hurl : pyTruthyStr fmt.url = true) :
    ytFormatInfo fmt ∈ normalizeYoutube fs ∧
    (fmt.format_id = none → (ytFormatInfo fmt).format_id = none) ∧
    (fmt.ext = none → (ytFormatInfo fmt).ext = none) ∧
    (fmt.filesize = none → (ytFormatInfo fmt).filesize = none) ∧
    (fmt.vcodec = none → (ytFormatInfo fmt).vcodec = none) ∧
    (fmt.acodec = none → (ytFormatInfo fmt).acodec = none) ∧
    (fmt.width = none → (ytFormatInfo fmt).width = none) ∧
    (fmt.height = none → (ytFormatInfo fmt).height = none) ∧
    (fmt.fps = none → (ytFormatInfo fmt).fps = none) ∧
    (fmt.tbr = none → (ytFormatInfo fmt).tbr = none) ∧
    (∀ v, fmt.format_note = some v → (ytFormatInfo fmt).quality = v) ∧
    (fmt.format_note = none → (ytFormatInfo fmt).quality = some "Unknown") := by
  refine ⟨?_, fun h => h, fun h => h, fun h => h, fun h => h, fun h => h, fun h => h,
          fun h => h, fun h => h, fun h => h, ?_, ?_⟩
  · unfold normalizeYoutube normalizeFormats
    exact List.mem_filterMap.mpr ⟨fmt, hmem, by rw [if_pos hurl]⟩
  · intro v hv
    show noteToQuality fmt.format_note = v
    rw [hv]
    exact rfl
  · intro h
    show noteToQuality fmt.format_note = some "Unknown"
    rw [h]
    exact rfl

/-- Witness for C8 as amended: the retained entry appears in the normalized
list. -/
theorem normalizer_projection_witness :
    ytFormatInfo rawNoNote ∈ normalizeYoutube [rawNoNote] :=
  (normalizer_projection [rawNoNote] rawNoNote (by decide) (by rfl)).1
